import Mathlib

/-!
Shallow embedding of the iterative ptychographic reconstruction engine of
py4DSTEM (`py4DSTEM/process/phase/iterative_ptychography.py` and
`iterative_constraints.py`), together with theorems settling the claims
about its Fourier projections, adjoint normalizations, constraint pipeline,
configuration validation and reconstruction loop bookkeeping.

Arrays are modelled as functions from a finite index type into the complex
numbers (or the reals); the abstract numeric backend operations `fft` and
`ifft` (`xp.fft.fft2` / `xp.fft.ifft2`) are parameters, matching the spec
statement that the backend is an external collaborator.
-/

namespace Ptycho

/-- Mean of a real-valued array over a finite index type, `xp.mean`. -/
noncomputable def npMean {ι : Type} [Fintype ι] (x : ι → ℝ) : ℝ :=
  (∑ i, x i) / (Fintype.card ι : ℝ)

/-- Maximum entry of a real-valued array over a nonempty finite index type,
`xp.max`. -/
noncomputable def npMax {ι : Type} [Fintype ι] [Nonempty ι] (x : ι → ℝ) : ℝ :=
  Finset.univ.sup' Finset.univ_nonempty x

/-- Modelled from the spec: `_sum_overlapping_patches_bincounts` (defined in
`iterative_base_class.py`, which is not among the provided sources) performs
scatter-add accumulation across all patches that overlap a given object pixel:
the value at object pixel `i` is the sum of `v p` over all patch entries `p`
whose patch index map sends them to `i`. -/
def sumOverlappingPatchesBincounts {P I M : Type} [Fintype P] [DecidableEq I]
    [AddCommMonoid M] (idxMap : P → I) (v : P → M) : I → M :=
  fun i => ∑ p, if idxMap p = i then v p else 0

/-- The reciprocal-space amplitude-residual reconstruction error shared by both
Fourier projections:
`xp.mean(xp.abs(amplitudes - xp.abs(fourier_overlap)) ** 2) / self._mean_diffraction_intensity`. -/
noncomputable def fourierAmplitudeError {ι : Type} [Fintype ι]
    (fft : (ι → ℂ) → (ι → ℂ)) (meanDiffractionIntensity : ℝ)
    (amplitudes : ι → ℝ) (overlap : ι → ℂ) : ℝ :=
  npMean (fun k => |amplitudes k - Complex.abs (fft overlap k)| ^ 2) /
    meanDiffractionIntensity

/-- Embedding of `_gradient_descent_fourier_projection`
(`iterative_ptychography.py`, lines 538-569): `F = fft(overlap)`;
`error = mean(|amplitudes - |F||^2) / mean_diffraction_intensity`;
`F' = amplitudes * exp(1j * angle(F))`; returns
`(ifft(F') - overlap, error)`.  The incoming `exit_waves` argument is
ignored, exactly as in the source. -/
noncomputable def gradientDescentFourierProjection {ι : Type} [Fintype ι]
    (fft ifft : (ι → ℂ) → (ι → ℂ)) (meanDiffractionIntensity : ℝ)
    (amplitudes : ι → ℝ) (overlap : ι → ℂ) (exitWaves : Option (ι → ℂ)) :
    (ι → ℂ) × ℝ :=
  let fourierOverlap := fft overlap
  let error :=
    npMean (fun k => |amplitudes k - Complex.abs (fourierOverlap k)| ^ 2) /
      meanDiffractionIntensity
  let fourierModifiedOverlap :=
    fun k => (amplitudes k : ℂ) * Complex.exp (Complex.I * (fourierOverlap k).arg)
  let modifiedOverlap := ifft fourierModifiedOverlap
  (fun k => modifiedOverlap k - overlap k, error)

/-- Embedding of `_projection_sets_fourier_projection`
(`iterative_ptychography.py`, lines 571-610): with `x = 1 - a - b` and
`y = 1 - c`, the previous exit wave defaulting to `overlap` when `None`,
`factor = c * overlap + y * exit_waves` is amplitude-projected in reciprocal
space and the function returns
`(x * exit_waves + a * overlap + b * projected_factor, error)`,
the error being computed from `overlap` exactly as in the gradient branch. -/
noncomputable def projectionSetsFourierProjection {ι : Type} [Fintype ι]
    (fft ifft : (ι → ℂ) → (ι → ℂ)) (meanDiffractionIntensity : ℝ)
    (amplitudes : ι → ℝ) (overlap : ι → ℂ) (exitWaves : Option (ι → ℂ))
    (projectionA projectionB projectionC : ℝ) : (ι → ℂ) × ℝ :=
  let projectionX := 1 - projectionA - projectionB
  let projectionY := 1 - projectionC
  let fourierOverlap := fft overlap
  let error :=
    npMean (fun k => |amplitudes k - Complex.abs (fourierOverlap k)| ^ 2) /
      meanDiffractionIntensity
  let exitWavesPrev := exitWaves.getD overlap
  let factorToBeProjected :=
    fun k => (projectionC : ℂ) * overlap k + (projectionY : ℂ) * exitWavesPrev k
  let fourierProjectedFactor := fft factorToBeProjected
  let fourierProjectedFactorAmp :=
    fun k => (amplitudes k : ℂ) *
      Complex.exp (Complex.I * (fourierProjectedFactor k).arg)
  let projectedFactor := ifft fourierProjectedFactorAmp
  (fun k => (projectionX : ℂ) * exitWavesPrev k + (projectionA : ℂ) * overlap k +
      (projectionB : ℂ) * projectedFactor k,
    error)

/-- Written from the words of the spec: the Fourier amplitude projection of an
array, "replace amplitude while preserving phase:
`F' = amplitudes * exp(i*angle(F))`; `modified = IFFT(F')`". -/
noncomputable def specAmplitudeProjected {ι : Type}
    (fft ifft : (ι → ℂ) → (ι → ℂ)) (amplitudes : ι → ℝ) (factor : ι → ℂ) :
    ι → ℂ :=
  ifft (fun k => (amplitudes k : ℂ) * Complex.exp (Complex.I * (fft factor k).arg))

/-- Written from the words of the spec: the projection-sets exit wave
`exit_wave_new = x*exit_wave_prev + a*overlap + b*projected` with
`x = 1 - a - b`, `projected` the Fourier amplitude projection of
`c*overlap + (1-c)*exit_wave_prev`, and `exit_wave_prev` defaulting to
`overlap` when there is no previous exit wave. -/
noncomputable def specProjectionSetsExitWave {ι : Type}
    (fft ifft : (ι → ℂ) → (ι → ℂ)) (amplitudes : ι → ℝ) (overlap : ι → ℂ)
    (exitWavePrev : Option (ι → ℂ)) (a b c : ℝ) : ι → ℂ :=
  let prev := exitWavePrev.getD overlap
  let projected := specAmplitudeProjected fft ifft amplitudes
    (fun k => (c : ℂ) * overlap k + ((1 - c : ℝ) : ℂ) * prev k)
  fun k => ((1 - a - b : ℝ) : ℂ) * prev k + (a : ℂ) * overlap k +
    (b : ℂ) * projected k

/-- Written from the words of the spec: the gradient-descent exit wave is the
difference `IFFT(amplitudes * exp(i*angle(FFT(overlap)))) - overlap`. -/
noncomputable def specGradientDescentExitWave {ι : Type}
    (fft ifft : (ι → ℂ) → (ι → ℂ)) (amplitudes : ι → ℝ) (overlap : ι → ℂ) :
    ι → ℂ :=
  fun k => specAmplitudeProjected fft ifft amplitudes overlap k - overlap k

/-- Embedding of the probe-side normalization denominator of
`_gradient_descent_adjoint` (`iterative_ptychography.py`, lines 672-676):
`1e-9 + _sum_overlapping_patches_bincounts(normalization_min * |shifted_probes|**2
+ (1 - normalization_min) * max(|shifted_probes|)**2)`; the source divides
by this quantity (`probe_normalization = 1 / (...)`). -/
noncomputable def gradientDescentProbeNormalizationDenominator
    {P I : Type} [Fintype P] [Nonempty P] [DecidableEq I]
    (idxMap : P → I) (normalizationMin : ℝ) (shiftedProbes : P → ℂ) : I → ℝ :=
  fun i => 1e-9 + sumOverlappingPatchesBincounts idxMap
    (fun p => normalizationMin * Complex.abs (shiftedProbes p) ^ 2 +
      (1 - normalizationMin) * npMax (fun q => Complex.abs (shiftedProbes q)) ^ 2) i

/-- Embedding of the object-side normalization denominator of
`_gradient_descent_adjoint` (`iterative_ptychography.py`, lines 696-700):
`1e-9 + xp.sum(normalization_min * |object_patches|**2
+ (1 - normalization_min) * max(|object_patches|)**2, axis=0)`, the sum over
`axis=0` running over the batch positions for each probe pixel. -/
noncomputable def gradientDescentObjectNormalizationDenominator
    {B K : Type} [Fintype B] [Fintype K] [Nonempty B] [Nonempty K]
    (normalizationMin : ℝ) (objectPatches : B × K → ℂ) : K → ℝ :=
  fun k => 1e-9 + ∑ b : B,
    (normalizationMin * Complex.abs (objectPatches (b, k)) ^ 2 +
      (1 - normalizationMin) * npMax (fun q => Complex.abs (objectPatches q)) ^ 2)

/-- Embedding of the object update of `_gradient_descent_adjoint`
(`iterative_ptychography.py`, lines 678-683):
`current_object += step_size * (_sum_overlapping_patches_bincounts(
conj(shifted_probes) * exit_waves) * probe_normalization)` with
`probe_normalization` the reciprocal of the denominator above. -/
noncomputable def gradientDescentObjectUpdate
    {P I : Type} [Fintype P] [Nonempty P] [DecidableEq I]
    (idxMap : P → I) (stepSize normalizationMin : ℝ)
    (shiftedProbes exitWaves : P → ℂ) (currentObject : I → ℂ) : I → ℂ :=
  fun i => currentObject i + (stepSize : ℂ) *
    (sumOverlappingPatchesBincounts idxMap
        (fun p => (starRingEnd ℂ) (shiftedProbes p) * exitWaves p) i *
      ((1 / gradientDescentProbeNormalizationDenominator idxMap normalizationMin
          shiftedProbes i : ℝ) : ℂ))

/-- Embedding of the probe-side normalization denominator of
`_projection_sets_adjoint` (`iterative_ptychography.py`, lines 726-732):
with `pn = _sum_overlapping_patches_bincounts(|shifted_probes|**2)`, the
source computes `probe_normalization = 1 / xp.sqrt(pn**2 +
(normalization_min * xp.max(pn))**2)`; this is the quantity under the
reciprocal.  Note there is no additive `1e-9` floor in this branch. -/
noncomputable def projectionSetsProbeNormalizationDenominator
    {P I : Type} [Fintype P] [Fintype I] [Nonempty I] [DecidableEq I]
    (idxMap : P → I) (normalizationMin : ℝ) (shiftedProbes : P → ℂ) : I → ℝ :=
  let pn := sumOverlappingPatchesBincounts idxMap
    (fun p => Complex.abs (shiftedProbes p) ^ 2)
  fun i => Real.sqrt (pn i ^ 2 + (normalizationMin * npMax pn) ^ 2)

/-- Embedding of `_object_threshold_constraint`
(`iterative_ptychography.py`, lines 1027-1050): `phase = exp(1j * angle(obj))`;
`amplitude = 1.0` when `pure_phase_object` else `min(|obj|, 1.0)`;
returns `amplitude * phase`. -/
noncomputable def objectThresholdConstraint {ι : Type}
    (currentObject : ι → ℂ) (purePhaseObject : Bool) : ι → ℂ :=
  fun i =>
    let phase := Complex.exp (Complex.I * (currentObject i).arg)
    let amplitude : ℝ :=
      if purePhaseObject then 1 else min (Complex.abs (currentObject i)) 1
    (amplitude : ℂ) * phase

/-- Embedding of `_object_smoothness_constraint`
(`iterative_ptychography.py`, lines 1052-1084); the scipy/cupy
`gaussian_filter` backend routine is abstract, passed both as a complex-array
and as a real-array operation. -/
noncomputable def objectSmoothnessConstraint {ι : Type}
    (gaussianFilterC : (ι → ℂ) → ℝ → (ι → ℂ))
    (gaussianFilterR : (ι → ℝ) → ℝ → (ι → ℝ))
    (currentObject : ι → ℂ) (gaussianBlurSigma : ℝ) (purePhaseObject : Bool) :
    ι → ℂ :=
  if purePhaseObject then
    let amplitude := fun i => Complex.abs (currentObject i)
    let phase := gaussianFilterR (fun i => (currentObject i).arg) gaussianBlurSigma
    fun i => (amplitude i : ℂ) * Complex.exp (Complex.I * phase i)
  else
    gaussianFilterC currentObject gaussianBlurSigma

/-- Embedding of `_probe_fourier_amplitude_constraint`
(`iterative_ptychography.py`, lines 1114-1139): the probe Fourier amplitude is
replaced by the stored initial amplitude, keeping the current Fourier phase. -/
noncomputable def probeFourierAmplitudeConstraint {κ : Type}
    (fft ifft : (κ → ℂ) → (κ → ℂ)) (probeInitialFftAmplitude : κ → ℝ)
    (currentProbe : κ → ℂ) : κ → ℂ :=
  ifft (fun k => (probeInitialFftAmplitude k : ℂ) *
    Complex.exp (Complex.I * (fft currentProbe k).arg))

/-- Embedding of `_probe_finite_support_constraint`
(`iterative_ptychography.py`, lines 1141-1157): pointwise multiplication by
the precomputed supergaussian support mask. -/
def probeFiniteSupportConstraint {κ : Type}
    (probeSupportMask : κ → ℝ) (currentProbe : κ → ℂ) : κ → ℂ :=
  fun k => currentProbe k * (probeSupportMask k : ℂ)

/-- Componentwise mean of an array of `n` scan positions, `xp.mean(..., axis=0)`. -/
noncomputable def positionsMean {n : ℕ} (ps : Fin n → ℝ × ℝ) : ℝ × ℝ :=
  ((∑ i, (ps i).1) / (n : ℝ), (∑ i, (ps i).2) / (n : ℝ))

/-- Embedding of `_positions_center_of_mass_constraint`
(`iterative_ptychography.py`, lines 1159-1186, identically
`iterative_constraints.py`, lines 352-377):
`current_positions -= xp.mean(current_positions, axis=0) - self._positions_px_com`;
the fractional-position and patch-index reassignments it also performs are
recomputed from the returned positions and do not feed back into them. -/
noncomputable def positionsCenterOfMassConstraint {n : ℕ}
    (positionsPxCom : ℝ × ℝ) (currentPositions : Fin n → ℝ × ℝ) :
    Fin n → ℝ × ℝ :=
  fun i =>
    ((currentPositions i).1 -
        ((positionsMean currentPositions).1 - positionsPxCom.1),
      (currentPositions i).2 -
        ((positionsMean currentPositions).2 - positionsPxCom.2))

/-- Embedding of `_constraints` (`iterative_ptychography.py`, lines 1188-1254):
the optional smoothness constraint, then unconditionally the object threshold
constraint; then the optional probe Fourier-amplitude lock, the unconditional
probe finite support mask, the optional probe center-of-mass recentering
(abstract, as `get_CoM`/`fft_shift` live outside the provided sources); and the
position center-of-mass constraint unless positions are fixed. -/
noncomputable def constraintsOp {ι κ : Type} {n : ℕ}
    (gaussianFilterC : (ι → ℂ) → ℝ → (ι → ℂ))
    (gaussianFilterR : (ι → ℝ) → ℝ → (ι → ℝ))
    (fft ifft : (κ → ℂ) → (κ → ℂ)) (probeInitialFftAmplitude : κ → ℝ)
    (probeSupportMask : κ → ℝ) (probeComShift : (κ → ℂ) → (κ → ℂ))
    (positionsPxCom : ℝ × ℝ)
    (currentObject : ι → ℂ) (currentProbe : κ → ℂ)
    (currentPositions : Fin n → ℝ × ℝ)
    (purePhaseObject : Bool) (gaussianBlurSigma : Option ℝ)
    (fixCom fixProbeFourierAmplitude fixPositions : Bool) :
    (ι → ℂ) × (κ → ℂ) × (Fin n → ℝ × ℝ) :=
  let obj1 := match gaussianBlurSigma with
    | some sigma =>
        objectSmoothnessConstraint gaussianFilterC gaussianFilterR
          currentObject sigma purePhaseObject
    | none => currentObject
  let obj2 := objectThresholdConstraint obj1 purePhaseObject
  let pr1 := if fixProbeFourierAmplitude then
      probeFourierAmplitudeConstraint fft ifft probeInitialFftAmplitude
        currentProbe
    else currentProbe
  let pr2 := probeFiniteSupportConstraint probeSupportMask pr1
  let pr3 := if fixCom then probeComShift pr2 else pr2
  let pos1 := if fixPositions then currentPositions
    else positionsCenterOfMassConstraint positionsPxCom currentPositions
  (obj2, pr3, pos1)

/-- The configuration computed by the reconstruction-method dispatch at the
top of `reconstruct` (`iterative_ptychography.py`, lines 1330-1357):
`use_projection_scheme`, the three projection scalars, the (possibly cleared)
`step_size`, and the (possibly cleared) `reconstruction_parameter`. -/
structure ProjectionConfig (K : Type) where
  useProjectionScheme : Bool
  projectionA : Option K
  projectionB : Option K
  projectionC : Option K
  stepSize : Option K
  reconstructionParameter : Option K
  deriving Repr, DecidableEq

/-- Embedding of the validation prelude of `reconstruct`
(`iterative_ptychography.py`, lines 1330-1357): the range check on
`reconstruction_parameter` comes first, then the dispatch on
`reconstruction_method`; DM_AP sets `(a, b, c) = (-p, 1, 1 + p)` and clears
`step_size`; RAAR sets `(a, b, c) = (1 - 2p, p, 2)` and clears `step_size`;
GD clears the projection scalars and `reconstruction_parameter`; any other
name is a configuration error. -/
def reconstructValidate {K : Type} [LinearOrderedField K]
    (reconstructionParameter : K) (reconstructionMethod : String)
    (stepSize : K) : Except String (ProjectionConfig K) :=
  if reconstructionParameter < 0 ∨ reconstructionParameter > 1 then
    .error "reconstruction_parameter must be between 0-1."
  else if reconstructionMethod = "DM_AP" ∨
      reconstructionMethod = "difference-map_alternating-projections" then
    .ok ⟨true, some (-reconstructionParameter), some 1,
      some (1 + reconstructionParameter), none, some reconstructionParameter⟩
  else if reconstructionMethod = "RAAR" ∨
      reconstructionMethod = "relaxed-averaged-alternating-reflections" then
    .ok ⟨true, some (1 - 2 * reconstructionParameter),
      some reconstructionParameter, some 2, none, some reconstructionParameter⟩
  else if reconstructionMethod = "GD" ∨
      reconstructionMethod = "gradient-descent" then
    .ok ⟨false, none, none, none, some stepSize, none⟩
  else
    .error "reconstruction_method must be one of DM_AP (or difference-map_alternating-projections), RAAR (or relaxed-averaged-alternating-reflections), or GD (or gradient-descent)."

/-- Embedding of the batching check of `reconstruct`
(`iterative_ptychography.py`, lines 1371-1381): a non-`None` `max_batch_size`
with a projection-scheme method is a configuration error; a `None`
`max_batch_size` is replaced by the number of diffraction patterns. -/
def batchingValidate {K : Type} (cfg : ProjectionConfig K)
    (maxBatchSize : Option ℕ) (numDiffractionPatterns : ℕ) :
    Except String ℕ :=
  match maxBatchSize with
  | some m =>
      if cfg.useProjectionScheme then
        .error "Stochastic object/probe updating is inconsistent with DM_AP and RAAR. Use reconstruction_method=GD or set max_batch_size=None."
      else .ok m
  | none => .ok numDiffractionPatterns

/-- Embedding of the control flow of `reconstruct` around its validation
prelude: both checks run before any mutation of the instance, so an error
leaves the state untouched and the iteration body (`loopBody`, standing for
initialization plus the main loop, lines 1384-1504) never runs.  The result
pairs the final state with an optional error message. -/
def reconstructRun {K S : Type} [LinearOrderedField K]
    (loopBody : ProjectionConfig K → ℕ → S → S) (st : S)
    (reconstructionParameter : K) (reconstructionMethod : String)
    (stepSize : K) (maxBatchSize : Option ℕ) (numDiffractionPatterns : ℕ) :
    S × Option String :=
  match reconstructValidate reconstructionParameter reconstructionMethod
      stepSize with
  | .error msg => (st, some msg)
  | .ok cfg =>
      match batchingValidate cfg maxBatchSize numDiffractionPatterns with
      | .error msg => (st, some msg)
      | .ok mb => (loopBody cfg mb st, none)

/-- The loop state mutated by each batch of `reconstruct`: the object, the
probe, the working scan positions, and the exit-wave cache (`None` until the
first batch has run). -/
structure LoopState (Obj Probe Pos EW : Type) where
  object : Obj
  probe : Probe
  positionsPx : Pos
  exitWaves : Option EW

/-- Embedding of the batch body of the main loop of `reconstruct`
(`iterative_ptychography.py`, lines 1438-1492): the working positions are
recomputed from the initial-positions snapshot
(`self._positions_px = self._positions_px_initial.copy()[shuffled_indices][start:end]`)
and the amplitudes are sliced, before the forward, adjoint and constraints
operators (abstract here, and allowed to depend on the iteration index `a0`
through the warm-up gating booleans) run in order; the returned exit waves
are cached and the batch error is returned alongside the new state. -/
def reconstructBatchBody {Obj Probe Pos EW Err Amps Batch : Type}
    (positionsPxInitial : Pos)
    (slicePositions : Pos → Batch → Pos)
    (sliceAmplitudes : Batch → Amps)
    (forwardOp : ℕ → Obj → Probe → Pos → Amps → Option EW → EW × Err)
    (adjointOp : ℕ → Obj → Probe → Pos → EW → Obj × Probe × Pos)
    (constraintsStep : ℕ → Obj → Probe → Pos → Obj × Probe × Pos)
    (a0 : ℕ) (st : LoopState Obj Probe Pos EW) (b : Batch) :
    LoopState Obj Probe Pos EW × Err :=
  let positions := slicePositions positionsPxInitial b
  let amplitudes := sliceAmplitudes b
  let fw := forwardOp a0 st.object st.probe positions amplitudes st.exitWaves
  let adj := adjointOp a0 st.object st.probe positions fw.1
  let cons := constraintsStep a0 adj.1 adj.2.1 adj.2.2
  (⟨cons.1, cons.2.1, cons.2.2, some fw.1⟩, fw.2)

/-- One iteration of the inner batch loop of `reconstruct`: the batch body is
folded over the list of batches; the local `error` variable keeps the value
returned by the most recently processed batch. -/
def runBatches {S B E : Type} (body : S → B → S × E) :
    S → E → List B → S × E
  | s, e, [] => (s, e)
  | s, _, b :: bs =>
      let r := body s b
      runBatches body r.1 r.2 bs

/-- Embedding of the main loop of `reconstruct`
(`iterative_ptychography.py`, lines 1426-1502): `maxIter` iterations, each
running the batch body over that iteration's batch list; when
`store_iterations` is set, the per-iteration error appended to
`error_iterations` is the value of the `error` variable after the inner batch
loop; the final stored error (third component) is that same variable after
the last iteration. -/
def reconstructLoop {S B E : Type} (body : ℕ → S → B → S × E)
    (batchesFor : ℕ → List B) (storeIterations : Bool) (maxIter : ℕ)
    (s0 : S) (e0 : E) : S × List E × E :=
  (List.range maxIter).foldl
    (fun acc a0 =>
      let r := runBatches (body a0) acc.1 acc.2.2 (batchesFor a0)
      (r.1, if storeIterations then acc.2.1 ++ [r.2] else acc.2.1, r.2))
    (s0, [], e0)

/-- The state and error after `k` full iterations of the main loop. -/
def iterStates {S B E : Type} (body : ℕ → S → B → S × E)
    (batchesFor : ℕ → List B) (s0 : S) (e0 : E) : ℕ → S × E
  | 0 => (s0, e0)
  | k + 1 =>
      let p := iterStates body batchesFor s0 e0 k
      runBatches (body k) p.1 p.2 (batchesFor k)

/-- A tiny concrete batch body over natural numbers, used to exercise the
loop bookkeeping on explicit inputs. -/
def demoBody : ℕ → ℕ → ℕ → ℕ × ℕ := fun _ s b => (s + b, s * 10 + b)

/-- A concrete two-batch schedule for every iteration, used alongside
`demoBody`. -/
def demoBatches : ℕ → List ℕ := fun _ => [1, 2]

theorem abs_exp_I_mul_arg (z : ℂ) :
    Complex.abs (Complex.exp (Complex.I * (z.arg : ℂ))) = 1 := by
  rw [Complex.abs_exp]
  simp [Complex.mul_re]

theorem objectThresholdConstraint_abs_le_one {ι : Type} (obj : ι → ℂ)
    (pp : Bool) (i : ι) :
    Complex.abs (objectThresholdConstraint obj pp i) ≤ 1 := by
  unfold objectThresholdConstraint
  rw [map_mul, Complex.abs_ofReal, abs_exp_I_mul_arg, mul_one]
  cases pp with
  | true => simp
  | false =>
      simp only [Bool.false_eq_true, if_false]
      rw [abs_of_nonneg (le_min (AbsoluteValue.nonneg _ _) zero_le_one)]
      exact min_le_right _ _

/-- C9: after the constraint step of every batch, every pixel of the object
array has amplitude at most 1: `_constraints` applies
`_object_threshold_constraint` unconditionally after the optional smoothing,
and nothing later in the pipeline touches the object, so the returned object
satisfies `|object[i]| <= 1` everywhere, in pure-phase mode and otherwise. -/
theorem constraints_object_amplitude_le_one {ι κ : Type} {n : ℕ}
    (gaussianFilterC : (ι → ℂ) → ℝ → (ι → ℂ))
    (gaussianFilterR : (ι → ℝ) → ℝ → (ι → ℝ))
    (fft ifft : (κ → ℂ) → (κ → ℂ)) (probeInitialFftAmplitude : κ → ℝ)
    (probeSupportMask : κ → ℝ) (probeComShift : (κ → ℂ) → (κ → ℂ))
    (positionsPxCom : ℝ × ℝ) (currentObject : ι → ℂ) (currentProbe : κ → ℂ)
    (currentPositions : Fin n → ℝ × ℝ) (purePhaseObject : Bool)
    (gaussianBlurSigma : Option ℝ)
    (fixCom fixProbeFourierAmplitude fixPositions : Bool) (i : ι) :
    Complex.abs
      ((constraintsOp gaussianFilterC gaussianFilterR fft ifft
          probeInitialFftAmplitude probeSupportMask probeComShift
          positionsPxCom currentObject currentProbe currentPositions
          purePhaseObject gaussianBlurSigma fixCom fixProbeFourierAmplitude
          fixPositions).1 i) ≤ 1 :=
  objectThresholdConstraint_abs_le_one _ _ i

theorem positionsMean_centerOfMassConstraint {n : ℕ} (h : 0 < n)
    (com : ℝ × ℝ) (ps : Fin n → ℝ × ℝ) :
    positionsMean (positionsCenterOfMassConstraint com ps) = com := by
  have hn : (n : ℝ) ≠ 0 := Nat.cast_ne_zero.mpr h.ne'
  unfold positionsMean positionsCenterOfMassConstraint
  simp only [Finset.sum_sub_distrib, Finset.sum_const, Finset.card_univ,
    Fintype.card_fin, nsmul_eq_mul]
  unfold positionsMean
  refine Prod.ext ?_ ?_ <;> field_simp

/-- C8: applying the position center-of-mass constraint twice in succession
yields the same positions as applying it once: after one application the mean
position equals the stored reference centroid `_positions_px_com`, so the
second application subtracts zero. -/
theorem positions_com_constraint_idempotent {n : ℕ} (com : ℝ × ℝ)
    (ps : Fin n → ℝ × ℝ) (h : 0 < n) :
    positionsCenterOfMassConstraint com (positionsCenterOfMassConstraint com ps) =
      positionsCenterOfMassConstraint com ps := by
  funext i
  conv_lhs => rw [positionsCenterOfMassConstraint,
    positionsMean_centerOfMassConstraint h com ps]
  simp

theorem positions_com_constraint_idempotent_witness :
    0 < 1 ∧
      positionsCenterOfMassConstraint (0, 0)
          (positionsCenterOfMassConstraint (0, 0) (fun _ : Fin 1 => (1, 2))) =
        positionsCenterOfMassConstraint (0, 0) (fun _ : Fin 1 => (1, 2)) :=
  ⟨Nat.one_pos,
    positions_com_constraint_idempotent (0, 0) (fun _ : Fin 1 => (1, 2))
      Nat.one_pos⟩

/-- C2: the gradient-descent Fourier projection computes `F = FFT(overlap)`,
returns the error `mean(|amplitudes - |F||^2) / mean_diffraction_intensity`,
and returns as exit wave the difference
`IFFT(amplitudes * exp(i*angle(F))) - overlap` between the
amplitude-corrected wave and the overlap, not the corrected wave itself. -/
theorem gradient_descent_fourier_projection_matches_spec {ι : Type} [Fintype ι]
    (fft ifft : (ι → ℂ) → (ι → ℂ)) (meanDiffractionIntensity : ℝ)
    (amplitudes : ι → ℝ) (overlap : ι → ℂ) (exitWaves : Option (ι → ℂ)) :
    (gradientDescentFourierProjection fft ifft meanDiffractionIntensity
        amplitudes overlap exitWaves).1 =
      specGradientDescentExitWave fft ifft amplitudes overlap ∧
    (gradientDescentFourierProjection fft ifft meanDiffractionIntensity
        amplitudes overlap exitWaves).2 =
      fourierAmplitudeError fft meanDiffractionIntensity amplitudes overlap :=
  ⟨rfl, rfl⟩

/-- C5: the error returned by the projection-sets Fourier projection equals
the error returned by the gradient-descent Fourier projection on the same
amplitudes and overlap; both equal
`mean(|amplitudes - |FFT(overlap)||^2) / mean_diffraction_intensity`, and the
value is independent of the previous exit waves and of the projection
scalars (quantified separately on each side). -/
theorem fourier_projection_errors_agree {ι : Type} [Fintype ι]
    (fft ifft : (ι → ℂ) → (ι → ℂ)) (meanDiffractionIntensity : ℝ)
    (amplitudes : ι → ℝ) (overlap : ι → ℂ)
    (exitWavesPS exitWavesGD : Option (ι → ℂ))
    (projectionA projectionB projectionC : ℝ) :
    (projectionSetsFourierProjection fft ifft meanDiffractionIntensity
        amplitudes overlap exitWavesPS projectionA projectionB
        projectionC).2 =
      (gradientDescentFourierProjection fft ifft meanDiffractionIntensity
        amplitudes overlap exitWavesGD).2 ∧
    (projectionSetsFourierProjection fft ifft meanDiffractionIntensity
        amplitudes overlap exitWavesPS projectionA projectionB
        projectionC).2 =
      fourierAmplitudeError fft meanDiffractionIntensity amplitudes overlap :=
  ⟨rfl, rfl⟩

theorem reconstructValidate_DM_AP {K : Type} [LinearOrderedField K]
    {p : K} (ss : K) (hp : ¬(p < 0 ∨ p > 1)) :
    reconstructValidate p "DM_AP" ss =
      .ok ⟨true, some (-p), some 1, some (1 + p), none, some p⟩ := by
  unfold reconstructValidate
  rw [if_neg hp, if_pos (Or.inl rfl)]

theorem reconstructValidate_RAAR {K : Type} [LinearOrderedField K]
    {p : K} (ss : K) (hp : ¬(p < 0 ∨ p > 1)) :
    reconstructValidate p "RAAR" ss =
      .ok ⟨true, some (1 - 2 * p), some p, some 2, none, some p⟩ := by
  unfold reconstructValidate
  rw [if_neg hp, if_neg (by decide), if_pos (Or.inl rfl)]

/-- C1: the projection-sets Fourier projection returns
`exit_wave_new = x*exit_wave_prev + a*overlap + b*projected` with
`x = 1 - a - b`, `projected` the inverse FFT of the amplitudes times the unit
phase of `FFT(c*overlap + (1-c)*exit_wave_prev)`, and `exit_wave_prev`
defaulting to `overlap` when no previous exit wave exists; and the dispatch
in `reconstruct` derives `(a, b, c) = (-p, 1, 1+p)` for DM_AP and
`(1-2p, p, 2)` for RAAR from the single reconstruction parameter `p`. -/
theorem projection_sets_fourier_projection_matches_spec {ι : Type} [Fintype ι]
    (fft ifft : (ι → ℂ) → (ι → ℂ)) (meanDiffractionIntensity : ℝ)
    (amplitudes : ι → ℝ) (overlap : ι → ℂ) (exitWaves : Option (ι → ℂ))
    (a b c : ℝ) {K : Type} [LinearOrderedField K] (p ss : K)
    (h0 : 0 ≤ p) (h1 : p ≤ 1) :
    (projectionSetsFourierProjection fft ifft meanDiffractionIntensity
        amplitudes overlap exitWaves a b c).1 =
      specProjectionSetsExitWave fft ifft amplitudes overlap exitWaves a b c ∧
    reconstructValidate p "DM_AP" ss =
      .ok ⟨true, some (-p), some 1, some (1 + p), none, some p⟩ ∧
    reconstructValidate p "RAAR" ss =
      .ok ⟨true, some (1 - 2 * p), some p, some 2, none, some p⟩ := by
  have hp : ¬(p < 0 ∨ p > 1) :=
    not_or.mpr ⟨not_lt.mpr h0, not_lt.mpr h1⟩
  exact ⟨rfl, reconstructValidate_DM_AP ss hp, reconstructValidate_RAAR ss hp⟩

theorem projection_sets_fourier_projection_matches_spec_witness :
    (0 : ℚ) ≤ 1/2 ∧ (1/2 : ℚ) ≤ 1 ∧
      ((projectionSetsFourierProjection (ι := Unit) id id 1 (fun _ => 0)
            (fun _ => 0) none 0 0 0).1 =
          specProjectionSetsExitWave id id (fun _ => 0) (fun _ => 0) none 0 0 0 ∧
        reconstructValidate (1/2 : ℚ) "DM_AP" (9/10) =
          .ok ⟨true, some (-(1/2)), some 1, some (1 + 1/2), none, some (1/2)⟩ ∧
        reconstructValidate (1/2 : ℚ) "RAAR" (9/10) =
          .ok ⟨true, some (1 - 2 * (1/2)), some (1/2), some 2, none,
            some (1/2)⟩) :=
  ⟨by norm_num, by norm_num,
    projection_sets_fourier_projection_matches_spec id id 1 (fun _ => 0)
      (fun _ => 0) none 0 0 0 (1/2 : ℚ) (9/10) (by norm_num) (by norm_num)⟩

theorem reconstructRun_param_out_of_range {K S : Type} [LinearOrderedField K]
    (loopBody : ProjectionConfig K → ℕ → S → S) (st : S) (p : K)
    (method : String) (ss : K) (mb : Option ℕ) (n : ℕ)
    (h : p < 0 ∨ p > 1) :
    reconstructRun loopBody st p method ss mb n =
      (st, some "reconstruction_parameter must be between 0-1.") := by
  unfold reconstructRun reconstructValidate
  rw [if_pos h]

theorem reconstructValidate_bad_method {K : Type} [LinearOrderedField K]
    (p ss : K) (method : String) (hp : ¬(p < 0 ∨ p > 1))
    (hm : method ∉ (["DM_AP", "difference-map_alternating-projections",
      "RAAR", "relaxed-averaged-alternating-reflections", "GD",
      "gradient-descent"] : List String)) :
    reconstructValidate p method ss =
      .error "reconstruction_method must be one of DM_AP (or difference-map_alternating-projections), RAAR (or relaxed-averaged-alternating-reflections), or GD (or gradient-descent)." := by
  simp only [List.mem_cons, List.not_mem_nil, or_false, not_or] at hm
  obtain ⟨h1, h2, h3, h4, h5, h6⟩ := hm
  unfold reconstructValidate
  rw [if_neg hp, if_neg (not_or.mpr ⟨h1, h2⟩), if_neg (not_or.mpr ⟨h3, h4⟩),
    if_neg (not_or.mpr ⟨h5, h6⟩)]

theorem reconstructValidate_projection_scheme {K : Type} [LinearOrderedField K]
    (p ss : K) (method : String) (hp : ¬(p < 0 ∨ p > 1))
    (hm : method ∈ (["DM_AP", "difference-map_alternating-projections",
      "RAAR", "relaxed-averaged-alternating-reflections"] : List String)) :
    ∃ cfg : ProjectionConfig K, reconstructValidate p method ss = .ok cfg ∧
      cfg.useProjectionScheme = true := by
  simp only [List.mem_cons, List.not_mem_nil, or_false] at hm
  unfold reconstructValidate
  rw [if_neg hp]
  rcases hm with hm | hm | hm | hm
  · subst hm
    rw [if_pos (Or.inl rfl)]
    exact ⟨_, rfl, rfl⟩
  · subst hm
    rw [if_pos (Or.inr rfl)]
    exact ⟨_, rfl, rfl⟩
  · subst hm
    rw [if_neg (by decide), if_pos (Or.inl rfl)]
    exact ⟨_, rfl, rfl⟩
  · subst hm
    rw [if_neg (by decide), if_pos (Or.inr rfl)]
    exact ⟨_, rfl, rfl⟩

/-- C3: if the reconstruction parameter lies outside `[0, 1]`, or the method
is not one of the six accepted names, or `max_batch_size` is not `None` while
a projection-scheme method is selected, then `reconstruct` reports a
configuration error before any iteration runs: for every loop body the
result pairs the untouched input state with an error message. -/
theorem reconstruct_config_error_leaves_state_unchanged {K S : Type}
    [LinearOrderedField K] (loopBody : ProjectionConfig K → ℕ → S → S)
    (st : S) (p : K) (method : String) (ss : K) (mb : Option ℕ) (n : ℕ)
    (h : p < 0 ∨ p > 1 ∨
      method ∉ (["DM_AP", "difference-map_alternating-projections", "RAAR",
        "relaxed-averaged-alternating-reflections", "GD",
        "gradient-descent"] : List String) ∨
      (mb ≠ none ∧
        method ∈ (["DM_AP", "difference-map_alternating-projections", "RAAR",
          "relaxed-averaged-alternating-reflections"] : List String))) :
    ∃ msg, reconstructRun loopBody st p method ss mb n = (st, some msg) := by
  by_cases hp : p < 0 ∨ p > 1
  · exact ⟨_, reconstructRun_param_out_of_range loopBody st p method ss mb n hp⟩
  rcases h with h | h | h | h
  · exact absurd (Or.inl h) hp
  · exact absurd (Or.inr h) hp
  · refine ⟨"reconstruction_method must be one of DM_AP (or difference-map_alternating-projections), RAAR (or relaxed-averaged-alternating-reflections), or GD (or gradient-descent).", ?_⟩
    unfold reconstructRun
    rw [reconstructValidate_bad_method p ss method hp h]
  · obtain ⟨hmb, hmethod⟩ := h
    obtain ⟨m, rfl⟩ := Option.ne_none_iff_exists'.mp hmb
    obtain ⟨cfg, hcfg, hups⟩ :=
      reconstructValidate_projection_scheme p ss method hp hmethod
    refine ⟨"Stochastic object/probe updating is inconsistent with DM_AP and RAAR. Use reconstruction_method=GD or set max_batch_size=None.", ?_⟩
    unfold reconstructRun
    rw [hcfg]
    simp [batchingValidate, hups]

theorem reconstruct_config_error_leaves_state_unchanged_witness :
    ((1/2 : ℚ) < 0 ∨ (1/2 : ℚ) > 1 ∨
      ("DM_AP" ∉ (["DM_AP", "difference-map_alternating-projections", "RAAR",
        "relaxed-averaged-alternating-reflections", "GD",
        "gradient-descent"] : List String)) ∨
      ((some 7 : Option ℕ) ≠ none ∧
        "DM_AP" ∈ (["DM_AP", "difference-map_alternating-projections", "RAAR",
          "relaxed-averaged-alternating-reflections"] : List String))) ∧
    ∃ msg, reconstructRun (K := ℚ) (S := ℕ) (fun _ _ s => s + 1) 0 (1/2)
        "DM_AP" (9/10) (some 7) 3 = (0, some msg) :=
  ⟨Or.inr (Or.inr (Or.inr ⟨by decide, by decide⟩)),
    reconstruct_config_error_leaves_state_unchanged (fun _ _ s => s + 1) 0
      (1/2) "DM_AP" (9/10) (some 7) 3
      (Or.inr (Or.inr (Or.inr ⟨by decide, by decide⟩)))⟩

/-- C10: `reconstruct` validates the reconstruction parameter against
`[0, 1]` before examining the method, so for every method string, including
the gradient-descent names for which the parameter is unused and later
cleared, an out-of-range parameter yields the parameter error and no
iteration runs. -/
theorem reconstruction_parameter_checked_before_method {K S : Type}
    [LinearOrderedField K] (loopBody : ProjectionConfig K → ℕ → S → S)
    (st : S) (p : K) (method : String) (ss : K) (mb : Option ℕ) (n : ℕ)
    (h : p < 0 ∨ p > 1) :
    reconstructRun loopBody st p method ss mb n =
      (st, some "reconstruction_parameter must be between 0-1.") ∧
    (∀ q : K, ¬(q < 0 ∨ q > 1) →
      reconstructValidate q "GD" ss =
        .ok ⟨false, none, none, none, some ss, none⟩) := by
  constructor
  · exact reconstructRun_param_out_of_range loopBody st p method ss mb n h
  · intro q hq
    unfold reconstructValidate
    rw [if_neg hq, if_neg (by decide), if_neg (by decide),
      if_pos (Or.inl rfl)]

theorem reconstruction_parameter_checked_before_method_witness :
    ((-1 : ℚ) < 0 ∨ (-1 : ℚ) > 1) ∧
      (reconstructRun (K := ℚ) (S := ℕ) (fun _ _ s => s + 1) 0 (-1) "GD"
          (9/10) none 3 =
        (0, some "reconstruction_parameter must be between 0-1.") ∧
      (∀ q : ℚ, ¬(q < 0 ∨ q > 1) →
        reconstructValidate q "GD" (9/10 : ℚ) =
          .ok ⟨false, none, none, none, some (9/10), none⟩)) :=
  ⟨Or.inl (by norm_num),
    reconstruction_parameter_checked_before_method (fun _ _ s => s + 1) 0
      (-1) "GD" (9/10) none 3 (Or.inl (by norm_num))⟩

/-- C4 counterexample: in the projection-sets adjoint the normalization
denominator `sqrt(pn**2 + (normalization_min * max(pn))**2)` has no additive
floor; with a single position and a single probe pixel whose shifted probe
value is 0, it is exactly zero, refuting the claim that the denominator is
never exactly zero in both adjoint strategies. -/
theorem projection_sets_normalization_denominator_is_zero :
    projectionSetsProbeNormalizationDenominator (fun _ : Unit => ())
      (1/100) (fun _ : Unit => 0) () = 0 := by
  simp [projectionSetsProbeNormalizationDenominator,
    sumOverlappingPatchesBincounts, npMax]

/-- C4 amended: in the gradient-descent adjoint the probe-side and
object-side normalization denominators both carry the additive `1e-9` floor
and are strictly positive for every input with `normalization_min` in
`[0, 1]`; moreover, for a batch whose shifted probe has amplitude 0
everywhere, the gradient-descent object update leaves the object unchanged
(the correction term is exactly zero).  The projection-sets denominator, in
contrast, can vanish (see the counterexample). -/
theorem gradient_descent_normalization_denominators_positive
    {P I B K2 : Type} [Fintype P] [Nonempty P] [DecidableEq I]
    [Fintype B] [Fintype K2] [Nonempty B] [Nonempty K2]
    (idxMap : P → I) (stepSize normalizationMin : ℝ)
    (shiftedProbes exitWaves : P → ℂ) (objectPatches : B × K2 → ℂ)
    (currentObject : I → ℂ)
    (h0 : 0 ≤ normalizationMin) (h1 : normalizationMin ≤ 1) :
    (∀ i, 0 < gradientDescentProbeNormalizationDenominator idxMap
      normalizationMin shiftedProbes i) ∧
    (∀ k, 0 < gradientDescentObjectNormalizationDenominator
      normalizationMin objectPatches k) ∧
    (shiftedProbes = (fun _ => 0) →
      gradientDescentObjectUpdate idxMap stepSize normalizationMin
        shiftedProbes exitWaves currentObject = currentObject) := by
  have hterm : ∀ (a m : ℝ),
      0 ≤ normalizationMin * a ^ 2 + (1 - normalizationMin) * m ^ 2 := by
    intro a m
    have := sq_nonneg a
    have := sq_nonneg m
    nlinarith
  have hsmall : (0 : ℝ) < 1e-9 := by norm_num
  refine ⟨?_, ?_, ?_⟩
  · intro i
    have hsum : 0 ≤ sumOverlappingPatchesBincounts idxMap
        (fun p => normalizationMin * Complex.abs (shiftedProbes p) ^ 2 +
          (1 - normalizationMin) *
            npMax (fun q => Complex.abs (shiftedProbes q)) ^ 2) i := by
      refine Finset.sum_nonneg ?_
      intro p _
      split
      · exact hterm _ _
      · exact le_refl 0
    unfold gradientDescentProbeNormalizationDenominator
    linarith
  · intro k
    have hsum : 0 ≤ ∑ b : B,
        (normalizationMin * Complex.abs (objectPatches (b, k)) ^ 2 +
          (1 - normalizationMin) *
            npMax (fun q => Complex.abs (objectPatches q)) ^ 2) :=
      Finset.sum_nonneg fun b _ => hterm _ _
    unfold gradientDescentObjectNormalizationDenominator
    linarith
  · intro hzero
    funext i
    unfold gradientDescentObjectUpdate
    rw [hzero]
    simp [sumOverlappingPatchesBincounts]

theorem gradient_descent_normalization_denominators_positive_witness :
    (0 : ℝ) ≤ 1/2 ∧ (1/2 : ℝ) ≤ 1 ∧
      ((∀ i, 0 < gradientDescentProbeNormalizationDenominator
          (fun _ : Unit => ()) (1/2) (fun _ => 0) i) ∧
        (∀ k, 0 < gradientDescentObjectNormalizationDenominator
          (B := Unit) (K := Unit) (1/2) (fun _ => 0) k) ∧
        ((fun _ : Unit => (0 : ℂ)) = (fun _ => 0) →
          gradientDescentObjectUpdate (fun _ : Unit => ()) (9/10) (1/2)
            (fun _ => 0) (fun _ => 0) (fun _ => 1) = fun _ => 1)) :=
  ⟨by norm_num, by norm_num,
    gradient_descent_normalization_denominators_positive
      (fun _ : Unit => ()) (9/10) (1/2) (fun _ => 0) (fun _ => 0)
      (fun _ => 0) (fun _ => 1) (by norm_num) (by norm_num)⟩

/-- C7: the batch body recomputes the working scan positions from the
initial-positions snapshot before anything else reads them, so its result
does not depend on the positions field of the incoming state: any
modification made to the positions (for instance by the position
center-of-mass constraint) during an earlier batch or iteration does not
persist into a later batch. -/
theorem batch_positions_recomputed_from_initial
    {Obj Probe Pos EW Err Amps Batch : Type}
    (positionsPxInitial : Pos) (slicePositions : Pos → Batch → Pos)
    (sliceAmplitudes : Batch → Amps)
    (forwardOp : ℕ → Obj → Probe → Pos → Amps → Option EW → EW × Err)
    (adjointOp : ℕ → Obj → Probe → Pos → EW → Obj × Probe × Pos)
    (constraintsStep : ℕ → Obj → Probe → Pos → Obj × Probe × Pos)
    (a0 : ℕ) (st : LoopState Obj Probe Pos EW) (q : Pos) (b : Batch) :
    (reconstructBatchBody positionsPxInitial slicePositions sliceAmplitudes
        forwardOp adjointOp constraintsStep a0
        ⟨st.object, st.probe, q, st.exitWaves⟩ b =
      reconstructBatchBody positionsPxInitial slicePositions sliceAmplitudes
        forwardOp adjointOp constraintsStep a0 st b) ∧
    (∀ (e : Err) (bs : List Batch),
      runBatches (reconstructBatchBody positionsPxInitial slicePositions
          sliceAmplitudes forwardOp adjointOp constraintsStep a0)
        ⟨st.object, st.probe, q, st.exitWaves⟩ e (b :: bs) =
      runBatches (reconstructBatchBody positionsPxInitial slicePositions
          sliceAmplitudes forwardOp adjointOp constraintsStep a0)
        st e (b :: bs)) :=
  ⟨rfl, fun _ _ => rfl⟩

theorem runBatches_append_singleton {S B E : Type} (body : S → B → S × E)
    (s : S) (e : E) (bs : List B) (b : B) :
    runBatches body s e (bs ++ [b]) = body (runBatches body s e bs).1 b := by
  induction bs generalizing s e with
  | nil => rfl
  | cons x xs ih =>
      simp only [List.cons_append, runBatches]
      exact ih _ _

theorem runBatches_snd_eq_last {S B E : Type} (body : S → B → S × E)
    (s : S) (e : E) (bs : List B) (b : B) (hb : bs.getLast? = some b) :
    (runBatches body s e bs).2 =
      (body (runBatches body s e bs.dropLast).1 b).2 := by
  obtain ⟨l, rfl⟩ := List.getLast?_eq_some_iff.mp hb
  rw [runBatches_append_singleton, List.dropLast_concat]

theorem reconstructLoop_eq_iterStates {S B E : Type} (body : ℕ → S → B → S × E)
    (batchesFor : ℕ → List B) (storeIterations : Bool) (maxIter : ℕ)
    (s0 : S) (e0 : E) :
    reconstructLoop body batchesFor storeIterations maxIter s0 e0 =
      ((iterStates body batchesFor s0 e0 maxIter).1,
        if storeIterations then
          (List.range maxIter).map
            (fun i => (iterStates body batchesFor s0 e0 (i + 1)).2)
        else [],
        (iterStates body batchesFor s0 e0 maxIter).2) := by
  induction maxIter with
  | zero => cases storeIterations <;> rfl
  | succ k ih =>
      unfold reconstructLoop at ih ⊢
      rw [List.range_succ, List.foldl_append, ih, List.foldl_cons,
        List.foldl_nil]
      show ((iterStates body batchesFor s0 e0 (k + 1)).1, _,
        (iterStates body batchesFor s0 e0 (k + 1)).2) = _
      cases storeIterations with
      | false => simp
      | true =>
          simp only [if_true, List.range_succ, List.map_append,
            List.map_cons, List.map_nil]
          rfl

/-- C6: with batching enabled (at least two batches per iteration), the
per-iteration error appended to `error_iterations` when snapshotting is
enabled, and the final scalar error stored after the loop, equal the error
of the last batch processed in that iteration (respectively the last batch
of the last iteration): the value of applying the batch body once, at the
final batch, from the state reached after all earlier batches of that
iteration — not an aggregate over the iteration's batches. -/
theorem per_iteration_error_is_last_batch_error {S B E : Type}
    (body : ℕ → S → B → S × E) (batchesFor : ℕ → List B) (maxIter : ℕ)
    (s0 : S) (e0 : E)
    (hb : ∀ i, i < maxIter → 2 ≤ (batchesFor i).length) (hm : 0 < maxIter) :
    (∀ i, i < maxIter → ∃ lb, (batchesFor i).getLast? = some lb ∧
      ((reconstructLoop body batchesFor true maxIter s0 e0).2.1)[i]? =
        some ((body i (runBatches (body i)
            (iterStates body batchesFor s0 e0 i).1
            (iterStates body batchesFor s0 e0 i).2
            ((batchesFor i).dropLast)).1 lb).2)) ∧
    (∃ lb, (batchesFor (maxIter - 1)).getLast? = some lb ∧
      (reconstructLoop body batchesFor true maxIter s0 e0).2.2 =
        (body (maxIter - 1) (runBatches (body (maxIter - 1))
            (iterStates body batchesFor s0 e0 (maxIter - 1)).1
            (iterStates body batchesFor s0 e0 (maxIter - 1)).2
            ((batchesFor (maxIter - 1)).dropLast)).1 lb).2) := by
  have hne : ∀ i, i < maxIter → ∃ lb, (batchesFor i).getLast? = some lb := by
    intro i hi
    have h2 := hb i hi
    have : batchesFor i ≠ [] := by
      intro hnil
      rw [hnil] at h2
      simp at h2
    obtain ⟨lb, hlb⟩ := Option.isSome_iff_exists.mp
      (List.getLast?_isSome.mpr this)
    exact ⟨lb, hlb⟩
  have hiter : ∀ i, i < maxIter → ∃ lb,
      (batchesFor i).getLast? = some lb ∧
      (iterStates body batchesFor s0 e0 (i + 1)).2 =
        (body i (runBatches (body i)
            (iterStates body batchesFor s0 e0 i).1
            (iterStates body batchesFor s0 e0 i).2
            ((batchesFor i).dropLast)).1 lb).2 := by
    intro i hi
    obtain ⟨lb, hlb⟩ := hne i hi
    refine ⟨lb, hlb, ?_⟩
    show (runBatches (body i) (iterStates body batchesFor s0 e0 i).1
        (iterStates body batchesFor s0 e0 i).2 (batchesFor i)).2 = _
    exact runBatches_snd_eq_last (body i) _ _ _ lb hlb
  rw [reconstructLoop_eq_iterStates]
  constructor
  · intro i hi
    obtain ⟨lb, hlb, hval⟩ := hiter i hi
    refine ⟨lb, hlb, ?_⟩
    simp only [if_true]
    rw [List.getElem?_map, List.getElem?_range hi]
    simpa using hval
  · obtain ⟨lb, hlb, hval⟩ := hiter (maxIter - 1) (by omega)
    refine ⟨lb, hlb, ?_⟩
    have hsucc : maxIter - 1 + 1 = maxIter := by omega
    rw [← hsucc]
    exact hval

theorem per_iteration_error_is_last_batch_error_witness :
    (∀ i, i < 1 → 2 ≤ (demoBatches i).length) ∧ 0 < 1 ∧
      ((∀ i, i < 1 → ∃ lb, (demoBatches i).getLast? = some lb ∧
        ((reconstructLoop demoBody demoBatches true 1 0 99).2.1)[i]? =
          some ((demoBody i (runBatches (demoBody i)
              (iterStates demoBody demoBatches 0 99 i).1
              (iterStates demoBody demoBatches 0 99 i).2
              ((demoBatches i).dropLast)).1 lb).2)) ∧
      (∃ lb, (demoBatches (1 - 1)).getLast? = some lb ∧
        (reconstructLoop demoBody demoBatches true 1 0 99).2.2 =
          (demoBody (1 - 1) (runBatches (demoBody (1 - 1))
              (iterStates demoBody demoBatches 0 99 (1 - 1)).1
              (iterStates demoBody demoBatches 0 99 (1 - 1)).2
              ((demoBatches (1 - 1)).dropLast)).1 lb).2)) :=
  ⟨fun _ _ => Nat.le_refl 2, Nat.one_pos,
    per_iteration_error_is_last_batch_error demoBody demoBatches 1 0 99
      (fun _ _ => Nat.le_refl 2) Nat.one_pos⟩

end Ptycho
